import Mathlib

/-!
# Verification of the minidesk session-relay broker

Shallow embedding of the session-relay engine of `src/app.py` (class
`SessionManager` and the WebSocket handler `websocket_handler`), together
with the deployment facts of `src/gunicorn_config.py` that matter for the
multi-process claims.

Modelling conventions:
* a session token (`password` in the source) is a `String`;
* a WebSocket connection is identified by a `Nat` (connections are opaque
  object references in the source; only their identity matters here);
* `time.time()` values are modelled as `Int` (the claims are about order
  comparisons only);
* the registry `SessionManager.sessions` is a map `Token → Option Session`;
  the eventlet semaphore serialises every registry operation in the source,
  so each operation is one atomic function on the registry state;
* the handler's per-message relay work (lines 598-612 of `src/app.py`) is
  one step function `relayStep`; whether `peer_ws.send` raises is an input
  to the step (`sendOk`), since it is decided by the transport.
-/

namespace Minidesk

/-- Session token: the `password` string of the source. -/
abbrev Token := String

/-- A connection identity (`websocket` object in the source). -/
abbrev Ws := Nat

/-- The two roles of the handshake: `'client'` and `'helper'`. -/
inductive Role where
  | client
  | helper
deriving DecidableEq, Repr

/-- The opposite role: `peer_role = 'helper' if role == 'client' else 'client'`
(line 78 of `src/app.py`). -/
def Role.peer : Role → Role
  | .client => .helper
  | .helper => .client

/-- The role string accepted by the handshake check
`role in ['client', 'helper']` (line 588), mapped to `Role`. -/
def Role.ofString : String → Option Role
  | "client" => some Role.client
  | "helper" => some Role.helper
  | _ => none

/-- One entry of `SessionManager.sessions` (lines 42-47 of `src/app.py`):
`{'client_ws': ..., 'helper_ws': ..., 'last_activity': ..., 'active': True}`. -/
structure Session where
  client_ws : Option Ws
  helper_ws : Option Ws
  last_activity : Int
  active : Bool
deriving DecidableEq, Repr

/-- The slot of a role: the `f'{role}_ws'` field access. -/
def Session.slot (s : Session) : Role → Option Ws
  | .client => s.client_ws
  | .helper => s.helper_ws

/-- `self.sessions[password][f'{role}_ws'] = websocket`. -/
def Session.setSlot (s : Session) (role : Role) (ws : Ws) : Session :=
  match role with
  | .client => { s with client_ws := some ws }
  | .helper => { s with helper_ws := some ws }

/-- `self.sessions[password][f'{role}_ws'] = None`. -/
def Session.clearSlot (s : Session) (role : Role) : Session :=
  match role with
  | .client => { s with client_ws := none }
  | .helper => { s with helper_ws := none }

/-- The registry state: `SessionManager.sessions`. -/
abbrev State := Token → Option Session

/-- The registry at process start: `self.sessions = {}` (line 35). -/
def initialState : State := fun _ => none

/-- The fresh entry written by `SessionManager.create_session`
(lines 39-48): both slots empty, `last_activity` = now, `active` = True. -/
def freshSession (now : Int) : Session :=
  { client_ws := none, helper_ws := none, last_activity := now, active := true }

/-- `SessionManager.add_connection(password, role, websocket)`
(lines 50-58): create the session if absent, then install `websocket` in
the role slot and refresh `last_activity`.  The source performs no channel
operation here: it never closes a previous occupant of the slot. -/
def add_connection (st : State) (password : Token) (role : Role) (ws : Ws)
    (now : Int) : State :=
  let base : Session :=
    match st password with
    | some s => s
    | none => freshSession now
  let s1 : Session := { base.setSlot role ws with last_activity := now }
  fun p => if p = password then some s1 else st p

/-- `SessionManager.remove_connection(password, role)` (lines 60-72):
if the session exists, clear the role slot unconditionally (the call takes
no connection identity), refresh `last_activity`, and delete the session
when both slots are now empty. -/
def remove_connection (st : State) (password : Token) (role : Role)
    (now : Int) : State :=
  match st password with
  | none => st
  | some s =>
    let s1 : Session := { s.clearSlot role with last_activity := now }
    if s1.client_ws = none ∧ s1.helper_ws = none then
      fun p => if p = password then none else st p
    else
      fun p => if p = password then some s1 else st p

/-- `SessionManager.get_peer_ws(password, role)` (lines 74-80): the
occupant of the opposite role's slot, `None` when the session is absent. -/
def get_peer_ws (st : State) (password : Token) (role : Role) : Option Ws :=
  match st password with
  | some s => s.slot role.peer
  | none => none

/-- `SessionManager.update_activity(password)` (lines 82-86): refresh
`last_activity` when the session exists; otherwise do nothing. -/
def update_activity (st : State) (password : Token) (now : Int) : State :=
  match st password with
  | none => st
  | some s => fun p => if p = password then some { s with last_activity := now } else st p

/-- `INACTIVE_TIMEOUT = 300` (line 31 of `src/app.py`). -/
def INACTIVE_TIMEOUT : Int := 300

/-- `SessionManager.cleanup_inactive_sessions` (lines 88-104), with the
timeout as a parameter (the source always passes the global
`INACTIVE_TIMEOUT`): delete every session with
`current_time - last_activity > timeout`, keep the rest.  The source
collects the stale tokens under the lock and deletes them under the lock;
no other mutation intervenes in this sequential model, so the two phases
collapse to one map. -/
def cleanup_inactive_sessions (st : State) (now timeout : Int) : State :=
  fun p =>
    match st p with
    | some s => if now - s.last_activity > timeout then none else some s
    | none => none

/-!
## The WebSocket handler (`websocket_handler`, lines 572-623 of `src/app.py`)
-/

/-- The whitespace set of Python's `str.strip()` (ASCII part):
space, tab, newline, carriage return, vertical tab, form feed. -/
def isPyWhitespace (c : Char) : Bool :=
  c = ' ' || c = '\t' || c = '\n' || c = '\r' || c = '\x0b' || c = '\x0c'

/-- Python's `str.strip()`: drop leading and trailing whitespace. -/
def pyStrip (s : String) : String :=
  String.mk (((s.data.dropWhile isPyWhitespace).reverse.dropWhile
    isPyWhitespace).reverse)

/-- The first message of a new connection, as seen by lines 578-590.
`timeoutOrClosed`: `ws.receive(timeout=10)` returned `None` (handshake
timeout, or the channel closed first).  `malformed`: `json.loads` (or the
subsequent field access) raised — the exception is swallowed by the outer
`except` and the handler returns.  `parsed p r`: a JSON object whose
`password` / `role` fields are `p` / `r` (`none` when the field is
absent; `handshake.get(..., '')` then yields `''`). -/
inductive HandshakeInput where
  | timeoutOrClosed
  | malformed
  | parsed (password : Option String) (role : Option String)
deriving DecidableEq, Repr

/-- What the handler does with the first message, as observable by the
remote peer.  `silentClose`: the handler returns without ever sending any
payload on the channel, and the transport closes it.  `proceed password
role`: the handshake was accepted with these trimmed fields and the
connection is bound. -/
inductive HandshakeOutcome where
  | silentClose
  | proceed (password : String) (role : String)
deriving DecidableEq, Repr

/-- Lines 578-590 of `src/app.py`: `None` from `receive` → return;
unparseable → exception → return; then
`password = handshake.get('password', '').strip()`,
`role = handshake.get('role', '').strip()`, and
`if not password or not role or role not in ['client', 'helper']: return`.
No path sends anything before returning. -/
def validateHandshake : HandshakeInput → HandshakeOutcome
  | .timeoutOrClosed => .silentClose
  | .malformed => .silentClose
  | .parsed p r =>
    let password := pyStrip (p.getD "")
    let role := pyStrip (r.getD "")
    if password = "" ∨ role = "" ∨ (role ≠ "client" ∧ role ≠ "helper") then
      .silentClose
    else
      .proceed password role

/-- What `ws.receive()` yields in the relay loop (line 599): `closed` for
`None`, `msg m` for a message. -/
inductive RecvResult where
  | closed
  | msg (m : String)
deriving DecidableEq, Repr

/-- Result of one iteration of the relay loop (lines 598-612): the registry
afterwards, the successful delivery (peer connection and the verbatim
message), and whether the loop runs another iteration (`false` means the
handler falls through to teardown). -/
structure StepResult where
  state : State
  delivered : Option (Ws × String)
  continueLoop : Bool

/-- One iteration of the relay loop of `websocket_handler` (lines 598-612):
`message = ws.receive()`; `None` → break.  Otherwise
`session_manager.update_activity(password)`, then
`peer_ws = session_manager.get_peer_ws(password, role)`; if a peer is
present, `peer_ws.send(message)` — and on an exception from the send the
loop *breaks* (lines 610-612).  `sendOk` says whether that send succeeds;
it is ignored when no peer is present (no send is attempted). -/
def relayStep (st : State) (password : Token) (role : Role) (now : Int)
    (recv : RecvResult) (sendOk : Bool) : StepResult :=
  match recv with
  | .closed => { state := st, delivered := none, continueLoop := false }
  | .msg m =>
    let st1 := update_activity st password now
    match get_peer_ws st1 password role with
    | some peer =>
      if sendOk then
        { state := st1, delivered := some (peer, m), continueLoop := true }
      else
        { state := st1, delivered := none, continueLoop := false }
    | none => { state := st1, delivered := none, continueLoop := true }

/-- Result of a `bind` as claimed by the spec: the new registry plus the
close notifications `(connection, reason)` issued by the broker during the
bind.  `add_connection` (lines 50-58) performs dictionary writes and
logging only — it never calls `close` on any channel — so the list is
always empty. -/
structure BindResult where
  state : State
  closed : List (Ws × String)

/-- The bind performed at line 593: `session_manager.add_connection`.
No close is issued to the previous occupant of the slot nor to the new
connection. -/
def bind (st : State) (password : Token) (role : Role) (ws : Ws)
    (now : Int) : BindResult :=
  { state := add_connection st password role ws now, closed := [] }

/-- `workers = 2` in `src/gunicorn_config.py` line 4: the deployed fleet
runs two worker processes, each with its own `SessionManager` instance
(module-level `session_manager = SessionManager()`, line 107 of
`src/app.py`; processes share no memory). -/
def gunicornWorkers : Nat := 2

/-- A two-worker deployment: each worker process holds an independent
registry. -/
structure TwoWorkerState where
  worker0 : State
  worker1 : State

/-!
## Concrete registry states used by counterexamples and witnesses
-/

/-- A session `"t"` whose client slot holds connection 1, helper slot empty. -/
def stClientOnly : State := fun p =>
  if p = "t" then
    some { client_ws := some 1, helper_ws := none, last_activity := 0, active := true }
  else none

/-- A session `"t"` with client connection 1 and helper connection 2 bound. -/
def stPaired : State := fun p =>
  if p = "t" then
    some { client_ws := some 1, helper_ws := some 2, last_activity := 0, active := true }
  else none

/-- A session `"t"` whose client slot holds connection 2 (a replacement that
overwrote an earlier client connection 1), helper slot empty. -/
def stClientTwo : State := fun p =>
  if p = "t" then
    some { client_ws := some 2, helper_ws := none, last_activity := 0, active := true }
  else none

/-- A session `"old"` with `last_activity = 0` and a still-occupied client
slot, used for sweeping. -/
def stStale : State := fun p =>
  if p = "old" then
    some { client_ws := some 3, helper_ws := none, last_activity := 0, active := true }
  else none

/-- The second worker process of a two-worker deployment: its own registry
has the helper (connection 2) bound for `"t"` but not the client. -/
def workerB : State := fun p =>
  if p = "t" then
    some { client_ws := none, helper_ws := some 2, last_activity := 0, active := true }
  else none

/-- A two-worker deployment where the client of session `"t"` is bound in
worker 0's registry and the helper in worker 1's registry. -/
def twoWorkers : TwoWorkerState := { worker0 := stClientOnly, worker1 := workerB }

end Minidesk

namespace Minidesk

/-!
## Helper lemmas
-/

/-- Sanity: the `Role.peer` involution of line 78. -/
theorem Role.peer_peer (r : Role) : r.peer.peer = r := by
  cases r <;> rfl

/-- Installing a connection in a role slot makes that slot hold it. -/
theorem Session.slot_setSlot_self (s : Session) (role : Role) (ws : Ws) :
    (s.setSlot role ws).slot role = some ws := by
  cases role <;> rfl

/-- Refreshing `last_activity` leaves both slots unchanged. -/
theorem Session.slot_set_last (s : Session) (r : Role) (now : Int) :
    ({ s with last_activity := now } : Session).slot r = s.slot r := by
  cases r <;> rfl

/-- Clearing one role's slot leaves the opposite slot unchanged. -/
theorem Session.slot_clearSlot_peer (s : Session) (role : Role) :
    (s.clearSlot role).slot role.peer = s.slot role.peer := by
  cases role <;> rfl

/-- `update_activity` never changes any slot, so peer lookup is unaffected
by the activity refresh that precedes it in the relay loop. -/
theorem get_peer_ws_update_activity (st : State) (pw p : Token) (now : Int)
    (r : Role) :
    get_peer_ws (update_activity st pw now) p r = get_peer_ws st p r := by
  unfold get_peer_ws update_activity
  cases h : st pw with
  | none => rfl
  | some s =>
    by_cases hp : p = pw
    · subst hp
      simp [h, Session.slot_set_last]
    · simp [hp]

/-- Pointwise description of `add_connection`. -/
theorem add_connection_apply (st : State) (pw : Token) (role : Role)
    (ws : Ws) (now : Int) (p : Token) :
    (add_connection st pw role ws now) p =
      if p = pw then
        some { (match st pw with
                | some s => s
                | none => freshSession now).setSlot role ws with
               last_activity := now }
      else st p := rfl

/-- Pointwise description of `remove_connection`. -/
theorem remove_connection_apply (st : State) (pw : Token) (role : Role)
    (now : Int) (p : Token) :
    (remove_connection st pw role now) p =
      match st pw with
      | none => st p
      | some s =>
        if p = pw then
          (if (s.clearSlot role).client_ws = none ∧
              (s.clearSlot role).helper_ws = none then none
           else some { s.clearSlot role with last_activity := now })
        else st p := by
  unfold remove_connection
  cases h0 : st pw with
  | none => rfl
  | some s =>
    dsimp only
    by_cases hc : (s.clearSlot role).client_ws = none ∧
        (s.clearSlot role).helper_ws = none
    · simp only [if_pos hc]
    · simp only [if_neg hc]

/-- Pointwise description of `update_activity`. -/
theorem update_activity_apply (st : State) (pw : Token) (now : Int)
    (p : Token) :
    (update_activity st pw now) p =
      match st pw with
      | none => st p
      | some s =>
        if p = pw then some { s with last_activity := now } else st p := by
  unfold update_activity
  cases st pw with
  | none => rfl
  | some s => rfl

/-- Applying `remove_connection` at its own token, for an existing session:
the slot of `role` is cleared unconditionally, and the session survives
exactly when the opposite slot is occupied. -/
theorem remove_connection_self (st : State) (pw : Token) (role : Role)
    (now : Int) (s : Session) (h : st pw = some s) :
    (remove_connection st pw role now) pw =
      (if s.slot role.peer = none then none
       else some { s.clearSlot role with last_activity := now }) := by
  unfold remove_connection
  rw [h]
  cases role <;>
    simp only [Session.clearSlot, Session.slot, Role.peer] <;>
    · simp only [true_and, and_true, eq_self_iff_true]
      split <;> simp

/-- The invariant of claim C4: every registered session has at least one
occupied role slot. -/
def Inv (st : State) : Prop :=
  ∀ p s, st p = some s → s.client_ws ≠ none ∨ s.helper_ws ≠ none

/-- The concrete state `stClientOnly` satisfies the registry invariant. -/
theorem inv_stClientOnly : Inv stClientOnly := by
  intro p s h
  by_cases hp : p = "t"
  · subst hp
    have hval : stClientOnly "t" =
        some { client_ws := some 1, helper_ws := none, last_activity := 0,
               active := true } := by decide
    rw [hval, Option.some.injEq] at h
    subst h
    left
    simp
  · simp [stClientOnly, hp] at h

/-!
## C1 — slot-conflict policy on bind
-/

/-- C1 fails on the code: with session `"t"`'s client slot occupied by
connection 1, `bind "t" client 2` issues no close at all (`closed = []`),
yet installs connection 2 as the new occupant.  Neither the replace policy
(close the stale occupant) nor the reject policy (close the newcomer) is
applied: both connections are left open and the slot is silently
overwritten — exactly the outcome the claim rules out. -/
theorem c1_counterexample :
    get_peer_ws stClientOnly "t" Role.helper = some 1 ∧
    (bind stClientOnly "t" Role.client 2 5).closed = [] ∧
    ((bind stClientOnly "t" Role.client 2 5).state "t").map Session.client_ws =
      some (some 2) ∧
    (1 : Ws) ≠ 2 :=
  ⟨by decide, rfl, by decide, by decide⟩

/-- C1 amended: `add_connection` (lines 50-58 of `src/app.py`) installs the
new connection in the role slot and closes nothing — the stale occupant of
an occupied slot is silently dropped from the slot, no close reason is ever
sent to either connection, and no other session is touched. -/
theorem c1_silent_overwrite (st : State) (pw : Token) (role : Role) (ws : Ws)
    (now : Int) :
    (bind st pw role ws now).closed = [] ∧
    ((bind st pw role ws now).state pw).map (fun s => s.slot role) =
      some (some ws) ∧
    (∀ p, p ≠ pw → (bind st pw role ws now).state p = st p) := by
  refine ⟨rfl, ?_, ?_⟩
  · show ((add_connection st pw role ws now) pw).map (fun s => s.slot role) = _
    unfold add_connection
    simp only [eq_self_iff_true, if_true, Option.map_some']
    rw [Session.slot_set_last, Session.slot_setSlot_self]
  · intro p hp
    show (add_connection st pw role ws now) p = st p
    unfold add_connection
    simp [hp]

/-- Witness for C1's amended theorem at a concrete input: binding client
connection 2 over the occupied slot of `stClientOnly` closes nothing and
leaves the unrelated token `"u"` unregistered. -/
theorem c1_silent_overwrite_witness :
    (bind stClientOnly "t" Role.client 2 5).closed = [] ∧
    (bind stClientOnly "t" Role.client 2 5).state "u" = none := by
  have h := c1_silent_overwrite stClientOnly "t" Role.client 2 5
  refine ⟨h.1, ?_⟩
  rw [h.2.2 "u" (by decide)]
  decide

/-!
## C2 — send failure to the peer
-/

/-- C2 fails on the code: in `stPaired` the helper (connection 2) is bound,
the client receives `"frame"` and the send to the peer fails — and the
relay loop *breaks* (`continueLoop = false`, lines 610-612 of
`src/app.py`: `except Exception: break`), where the claim requires the
loop to continue receiving. -/
theorem c2_counterexample :
    get_peer_ws stPaired "t" Role.client = some 2 ∧
    (relayStep stPaired "t" Role.client 5 (RecvResult.msg "frame")
      false).continueLoop = false :=
  ⟨by decide, by decide⟩

/-- C2 amended: a failed send to a present peer is fatal to this
connection's relay loop — the loop breaks (and the handler proceeds to
teardown), with no delivery made. -/
theorem c2_send_failure_fatal (st : State) (pw : Token) (role : Role)
    (now : Int) (m : String) (w : Ws)
    (h : get_peer_ws st pw role = some w) :
    (relayStep st pw role now (RecvResult.msg m) false).continueLoop = false ∧
    (relayStep st pw role now (RecvResult.msg m) false).delivered = none := by
  have key : get_peer_ws (update_activity st pw now) pw role = some w := by
    rw [get_peer_ws_update_activity]
    exact h
  unfold relayStep
  dsimp only
  rw [key]
  exact ⟨rfl, rfl⟩

/-- Witness for C2's amended theorem at a concrete input. -/
theorem c2_send_failure_fatal_witness :
    (relayStep stPaired "t" Role.client 5 (RecvResult.msg "frame2")
      false).continueLoop = false :=
  (c2_send_failure_fatal stPaired "t" Role.client 5 "frame2" 2 (by decide)).1

/-!
## C3 — unbind and occupant identity
-/

/-- C3 fails on the code: `remove_connection(password, role)` (lines 60-72
of `src/app.py`) takes no connection identity, so the guard the claim
describes cannot exist.  Concretely: session `"t"`'s client slot holds
connection 2 (a replacement), and the teardown of the superseded earlier
client connection 1 (`finally` block, line 622) calls
`remove_connection("t", client)` — which clears connection 2's binding and
deletes the session, instead of leaving the occupant in place as the claim
requires. -/
theorem c3_counterexample :
    (stClientTwo "t").map Session.client_ws = some (some 2) ∧
    (remove_connection stClientTwo "t" Role.client 5) "t" = none :=
  ⟨by decide, by decide⟩

/-- C3 amended: `remove_connection` unconditionally clears the role slot of
an existing session, regardless of which connection occupies it (it is not
told which connection is unbinding); the session is deleted exactly when
the opposite slot is also empty, and otherwise survives with the slot
cleared and `last_activity` refreshed. -/
theorem c3_unconditional_clear (st : State) (pw : Token) (role : Role)
    (now : Int) (s : Session) (h : st pw = some s) :
    (remove_connection st pw role now) pw =
      (if s.slot role.peer = none then none
       else some { s.clearSlot role with last_activity := now }) :=
  remove_connection_self st pw role now s h

/-- Witness for C3's amended theorem at a concrete input: clearing the
client slot of `stClientTwo` (helper slot empty) deletes the session. -/
theorem c3_unconditional_clear_witness :
    (remove_connection stClientTwo "t" Role.client 6) "t" = none := by
  have h := c3_unconditional_clear stClientTwo "t" Role.client 6
    { client_ws := some 2, helper_ws := none, last_activity := 0,
      active := true } (by decide)
  rw [h]
  decide

/-!
## C4 — registry membership invariant
-/

/-- C4: every registered session has at least one occupied role slot.  The
initial registry satisfies the invariant and every public operation
(`add_connection`, `remove_connection`, `update_activity`,
`cleanup_inactive_sessions`) preserves it, so it holds of every reachable
registry state; the unbind that empties the second slot deletes the
session entry within the same critical section (the same atomic
`remove_connection` call); and an unbind on an absent token — in
particular a second unbind after the first one deleted the session — is a
complete no-op, not an error. -/
theorem c4_registry_invariant (st : State) (hInv : Inv st) (pw : Token)
    (role : Role) (ws : Ws) (now timeout : Int) :
    Inv initialState ∧
    Inv (add_connection st pw role ws now) ∧
    Inv (remove_connection st pw role now) ∧
    Inv (update_activity st pw now) ∧
    Inv (cleanup_inactive_sessions st now timeout) ∧
    (∀ s, st pw = some s → s.slot role.peer = none →
      (remove_connection st pw role now) pw = none) ∧
    (st pw = none → remove_connection st pw role now = st) := by
  refine ⟨?_, ?_, ?_, ?_, ?_, ?_, ?_⟩
  · intro p s h
    simp [initialState] at h
  · intro p s h
    rw [add_connection_apply] at h
    by_cases hp : p = pw
    · rw [if_pos hp, Option.some.injEq] at h
      subst h
      cases role
      · left
        simp [Session.setSlot]
      · right
        simp [Session.setSlot]
    · rw [if_neg hp] at h
      exact hInv p s h
  · intro p s h
    rw [remove_connection_apply] at h
    cases h0 : st pw with
    | none =>
      rw [h0] at h
      exact hInv p s h
    | some s0 =>
      rw [h0] at h
      dsimp only at h
      by_cases hp : p = pw
      · rw [if_pos hp] at h
        split at h
        · cases h
        · next hne =>
          rw [Option.some.injEq] at h
          subst h
          rcases not_and_or.mp hne with hc | hh
          · left
            exact hc
          · right
            exact hh
      · rw [if_neg hp] at h
        exact hInv p s h
  · intro p s h
    rw [update_activity_apply] at h
    cases h0 : st pw with
    | none =>
      rw [h0] at h
      exact hInv p s h
    | some s0 =>
      rw [h0] at h
      dsimp only at h
      by_cases hp : p = pw
      · rw [if_pos hp, Option.some.injEq] at h
        subst h
        exact hInv _ s0 h0

      · rw [if_neg hp] at h
        exact hInv p s h
  · intro p s h
    unfold cleanup_inactive_sessions at h
    cases h0 : st p with
    | none =>
      rw [h0] at h
      cases h
    | some s0 =>
      rw [h0] at h
      dsimp only at h
      split at h
      · cases h
      · rw [Option.some.injEq] at h
        subst h
        exact hInv p s0 h0
  · intro s h hpeer
    rw [remove_connection_self st pw role now s h, if_pos hpeer]
  · intro h
    funext p
    rw [remove_connection_apply, h]

/-- Witness for C4 at a concrete input: unbinding the client of
`stClientOnly` (whose helper slot is empty) removes session `"t"` from the
registry within the same call. -/
theorem c4_registry_invariant_witness :
    (remove_connection stClientOnly "t" Role.client 7) "t" = none := by
  have h := c4_registry_invariant stClientOnly inv_stClientOnly "t"
    Role.client 9 7 300
  exact h.2.2.2.2.2.1
    { client_ws := some 1, helper_ws := none, last_activity := 0,
      active := true } (by decide) (by decide)

/-!
## C5 — relay of a message from a bound connection
-/

/-- C5: for a message `m` received from the connection in `role` of session
`pw` (with the send to the peer succeeding): the relay loop continues; the
delivery is exactly `get_peer_ws`'s occupant of the opposite slot,
receiving `m` verbatim — and `none` when that slot is empty or the session
is absent (the step delivers to at most one connection, so no other
session's connection can receive it); every other session is untouched;
the sender's session only has `last_activity` refreshed, both role slots
unchanged; and an absent session stays absent with the registry entirely
unchanged and no error raised (the step is a total function). -/
theorem c5_relay_delivery (st : State) (pw : Token) (role : Role)
    (now : Int) (m : String) :
    (relayStep st pw role now (RecvResult.msg m) true).continueLoop = true ∧
    (relayStep st pw role now (RecvResult.msg m) true).delivered =
      (get_peer_ws st pw role).map (fun w => (w, m)) ∧
    (∀ p, p ≠ pw →
      (relayStep st pw role now (RecvResult.msg m) true).state p = st p) ∧
    (∀ s, st pw = some s →
      (relayStep st pw role now (RecvResult.msg m) true).state pw =
        some { s with last_activity := now }) ∧
    (st pw = none →
      (relayStep st pw role now (RecvResult.msg m) true).state = st) := by
  have hstate : (relayStep st pw role now (RecvResult.msg m) true).state =
      update_activity st pw now := by
    unfold relayStep
    dsimp only
    cases get_peer_ws (update_activity st pw now) pw role <;> rfl
  refine ⟨?_, ?_, ?_, ?_, ?_⟩
  · unfold relayStep
    dsimp only
    cases get_peer_ws (update_activity st pw now) pw role <;> rfl
  · unfold relayStep
    dsimp only
    rw [get_peer_ws_update_activity (r := role)]
    cases get_peer_ws st pw role <;> rfl
  · intro p hp
    rw [hstate, update_activity_apply]
    cases h0 : st pw with
    | none => rfl
    | some s0 =>
      dsimp only
      rw [if_neg hp]
  · intro s h
    rw [hstate, update_activity_apply, h]
    simp
  · intro h
    rw [hstate]
    funext p
    rw [update_activity_apply, h]

/-- Witness for C5 at a concrete input: in `stPaired` the client's message
`"frame1"` is delivered verbatim to helper connection 2. -/
theorem c5_relay_delivery_witness :
    (relayStep stPaired "t" Role.client 5 (RecvResult.msg "frame1")
      true).delivered = some (2, "frame1") := by
  have h := c5_relay_delivery stPaired "t" Role.client 5 "frame1"
  rw [h.2.1]
  decide

/-!
## C6 — invalid handshakes close silently and indistinguishably
-/

/-- C6: every invalid first message — handshake timeout / channel closed
before the handshake, an unparseable payload, a password or role field
that is absent or empty after stripping whitespace, or a role other than
exactly `"client"` or `"helper"` — produces the same outcome
`silentClose`, which by construction carries no payload (the handler
returns without sending anything, lines 578-590 of `src/app.py`), so the
four failure kinds are indistinguishable to the remote peer. -/
theorem c6_invalid_handshake_silent :
    validateHandshake HandshakeInput.timeoutOrClosed =
      HandshakeOutcome.silentClose ∧
    validateHandshake HandshakeInput.malformed =
      HandshakeOutcome.silentClose ∧
    (∀ p r, pyStrip (p.getD "") = "" ∨ pyStrip (r.getD "") = "" →
      validateHandshake (HandshakeInput.parsed p r) =
        HandshakeOutcome.silentClose) ∧
    (∀ p r, pyStrip (r.getD "") ≠ "client" → pyStrip (r.getD "") ≠ "helper" →
      validateHandshake (HandshakeInput.parsed p r) =
        HandshakeOutcome.silentClose) := by
  refine ⟨rfl, rfl, ?_, ?_⟩
  · intro p r h
    unfold validateHandshake
    dsimp only
    rcases h with h | h
    · rw [if_pos (Or.inl h)]
    · rw [if_pos (Or.inr (Or.inl h))]
  · intro p r h1 h2
    unfold validateHandshake
    dsimp only
    rw [if_pos (Or.inr (Or.inr ⟨h1, h2⟩))]

/-- Witness for C6 at a concrete input: a parsed handshake with role
`"admin"` is silently closed. -/
theorem c6_invalid_handshake_silent_witness :
    validateHandshake (HandshakeInput.parsed (some "secret") (some "admin")) =
      HandshakeOutcome.silentClose :=
  c6_invalid_handshake_silent.2.2.2 (some "secret") (some "admin")
    (by decide) (by decide)

/-!
## C7 — the inactivity sweep
-/

/-- C7: `cleanup_inactive_sessions` (lines 88-104 of `src/app.py`) deletes
every session whose `last_activity` is older than `now - timeout`
(the source's `current_time - last_activity > INACTIVE_TIMEOUT` is the
same comparison over the integers) and retains every other session
unchanged — in both cases regardless of the session's slots, which the
sweep never inspects (`s` here is arbitrary, occupied slots included). -/
theorem c7_sweep_evicts_stale (st : State) (now timeout : Int) (p : Token)
    (s : Session) (h : st p = some s) :
    (s.last_activity < now - timeout →
      cleanup_inactive_sessions st now timeout p = none) ∧
    (¬ s.last_activity < now - timeout →
      cleanup_inactive_sessions st now timeout p = some s) := by
  unfold cleanup_inactive_sessions
  rw [h]
  dsimp only
  constructor
  · intro hold
    rw [if_pos (by omega)]
  · intro hnew
    rw [if_neg (by omega)]

/-- Witness for C7 at a concrete input: session `"old"` (idle since time 0,
client slot still occupied by connection 3) is evicted by a sweep at time
1000 with timeout 300. -/
theorem c7_sweep_evicts_stale_witness :
    cleanup_inactive_sessions stStale 1000 300 "old" = none := by
  have h := c7_sweep_evicts_stale stStale 1000 300 "old"
    { client_ws := some 3, helper_ws := none, last_activity := 0,
      active := true } (by decide)
  exact h.1 (by decide)

/-!
## C8 — bind followed by peerOf
-/

/-- C8: after a valid handshake (`validateHandshake` accepted the message
with token `pw` and a role string naming `role`), `add_connection`
followed immediately by `get_peer_ws` from the opposite role returns the
just-bound connection; and `get_peer_ws` returns `none` when the session
is absent, and `none` when the queried opposite slot is empty. -/
theorem c8_bind_then_peer (st : State) (inp : HandshakeInput)
    (pw rs : String) (role : Role) (ws : Ws) (now : Int)
    (hshake : validateHandshake inp = HandshakeOutcome.proceed pw rs)
    (hrole : Role.ofString rs = some role) :
    get_peer_ws (add_connection st pw role ws now) pw role.peer = some ws ∧
    (∀ p (r : Role), st p = none → get_peer_ws st p r = none) ∧
    (∀ p (r : Role) s, st p = some s → s.slot r.peer = none →
      get_peer_ws st p r = none) := by
  refine ⟨?_, ?_, ?_⟩
  · unfold get_peer_ws
    rw [add_connection_apply, if_pos rfl]
    dsimp only
    rw [Session.slot_set_last, Role.peer_peer, Session.slot_setSlot_self]
  · intro p r h
    unfold get_peer_ws
    rw [h]
  · intro p r s h hslot
    unfold get_peer_ws
    rw [h]
    exact hslot

/-- Witness for C8 at a concrete input: the handshake
`{"password": "secret", "role": "client"}` is accepted, and after binding
client connection 7 into the empty registry, the helper-side peer lookup
returns connection 7. -/
theorem c8_bind_then_peer_witness :
    get_peer_ws (add_connection initialState "secret" Role.client 7 3)
      "secret" Role.helper = some 7 :=
  (c8_bind_then_peer initialState
    (HandshakeInput.parsed (some "secret") (some "client")) "secret" "client"
    Role.client 7 3 (by decide) (by decide)).1

/-!
## C9 — scaled (multi-process) mode
-/

/-- C9 fails on the code: `src/app.py` contains no publish/subscribe bridge
and no pump tasks — `websocket_handler` (lines 597-612) runs one relay
loop that looks the peer up in its own process's in-memory
`session_manager` only.  Under `workers = 2` (`src/gunicorn_config.py`)
each worker process has an independent registry.  Concretely: the client
of session `"t"` is bound in worker 0's registry and the helper
(connection 2) in worker 1's; the client sends `"frame1"`, worker 0's
direct lookup finds no helper, and nothing is delivered — relaying does
not work across broker processes that share no memory. -/
theorem c9_counterexample :
    gunicornWorkers = 2 ∧
    get_peer_ws twoWorkers.worker1 "t" Role.client = some 2 ∧
    (relayStep twoWorkers.worker0 "t" Role.client 5
      (RecvResult.msg "frame1") true).delivered = none :=
  ⟨rfl, by decide, by decide⟩

/-- C9 amended: in the deployed two-worker configuration each worker
process holds its own registry and the handler performs direct in-memory
dispatch only; a relay step executed in worker 0 consults worker 0's
registry alone, so when the peer slot is empty there, nothing is delivered
— even though the peer is bound in worker 1's registry.  Cross-process
relaying does not occur; there are no pub/sub pump tasks. -/
theorem c9_no_cross_worker_relay (w : TwoWorkerState) (pw : Token)
    (role : Role) (now : Int) (m : String) (ws : Ws)
    (h0 : get_peer_ws w.worker0 pw role = none)
    (h1 : get_peer_ws w.worker1 pw role = some ws) :
    gunicornWorkers = 2 ∧
    (relayStep w.worker0 pw role now (RecvResult.msg m) true).delivered =
      none := by
  refine ⟨rfl, ?_⟩
  unfold relayStep
  dsimp only
  rw [get_peer_ws_update_activity, h0]

/-- Witness for C9's amended theorem at a concrete input. -/
theorem c9_no_cross_worker_relay_witness :
    (relayStep twoWorkers.worker0 "t" Role.client 5
      (RecvResult.msg "frame2") true).delivered = none :=
  (c9_no_cross_worker_relay twoWorkers "t" Role.client 5 "frame2" 2
    (by decide) (by decide)).2

/-!
## C10 — touch is a frame-preserving no-op on absent tokens
-/

/-- C10: `update_activity` (lines 82-86 of `src/app.py`) on an absent token
leaves the registry entirely unchanged (it creates no session); on a
present token it maps the session to the same record with only
`last_activity` replaced — both role slots and the `active` flag of that
session, and every other session, are untouched. -/
theorem c10_touch_frame (st : State) (pw : Token) (now : Int) :
    (st pw = none → update_activity st pw now = st) ∧
    (∀ p, p ≠ pw → update_activity st pw now p = st p) ∧
    (∀ s, st pw = some s →
      update_activity st pw now pw = some { s with last_activity := now }) := by
  refine ⟨?_, ?_, ?_⟩
  · intro h
    funext p
    rw [update_activity_apply, h]
  · intro p hp
    rw [update_activity_apply]
    cases h0 : st pw with
    | none => rfl
    | some s0 =>
      dsimp only
      rw [if_neg hp]
  · intro s h
    rw [update_activity_apply, h]
    simp

/-- Witness for C10 at a concrete input: touching `"t"` in `stPaired` at
time 9 refreshes only `last_activity`, keeping both bound connections. -/
theorem c10_touch_frame_witness :
    update_activity stPaired "t" 9 "t" =
      some { client_ws := some 1, helper_ws := some 2, last_activity := 9,
             active := true } := by
  have h := c10_touch_frame stPaired "t" 9
  exact h.2.2
    { client_ws := some 1, helper_ws := some 2, last_activity := 0,
      active := true } (by decide)

end Minidesk
